import Mathlib

/-!
Shallow embedding of the packet-demuxing core of a fork of the Symphonia
media framework: the AIFF chunk-list demuxer (symphonia-format-aiff),
the WavPack block-header reader (symphonia-codec-wavpack), and the
ISO-MP4 track-fragment composite atom (symphonia-format-isomp4).

Machine integers are embedded as `Nat` (with explicit `% 2^w` where the
source performs a wrapping cast), fallible operations return `Except Err`,
and the seekable byte source (`MediaSourceStream` of symphonia-core, an
external collaborator of the code under verification) is embedded as a
byte list plus a cursor position.
-/

/-- Error taxonomy of symphonia-core (`symphonia_core::errors::Error`),
restricted to the variants the embedded code produces.  A Rust `panic!`
is embedded as the distinguished outcome `Panic`, which is *not* one of
the library's error values. -/
inductive Err where
  | Unsupported (msg : String)
  | DecodeError (msg : String)
  | EndOfStream
  | IoError (msg : String)
  | Panic (msg : String)
deriving DecidableEq

/-- Modelled from the spec: the Stream Cursor, a "seekable byte source
exposing fixed-width big/little-endian reads, a skip-N-bytes primitive,
and a bounded lookback buffer".  `data` is the whole underlying source,
`pos` the cursor. -/
structure MediaSourceStream where
  data : List Nat
  pos : Nat
deriving DecidableEq

/-- Read exactly `n` bytes, advancing the cursor; I/O failure when fewer
than `n` bytes remain. -/
def readBytes (s : MediaSourceStream) (n : Nat) : Except Err (List Nat × MediaSourceStream) :=
  if s.pos + n ≤ s.data.length then
    .ok ((s.data.drop s.pos).take n, { data := s.data, pos := s.pos + n })
  else
    .error (.IoError "end of stream")

/-- Big-endian u32 from four bytes (`u32::from_be_bytes`). -/
def from_be_bytes (b : List Nat) : Nat :=
  match b with
  | [b0, b1, b2, b3] => ((b0 * 256 + b1) * 256 + b2) * 256 + b3
  | _ => 0

/-- Big-endian i16 from two bytes (`i16::from_be_bytes`), as an integer. -/
def i16_from_be_bytes (b : List Nat) : Int :=
  match b with
  | [b0, b1] =>
    let v := b0 * 256 + b1
    if v < 2 ^ 15 then (v : Int) else (v : Int) - 2 ^ 16
  | _ => 0

/-- Little-endian u32 from four bytes (symphonia `read_u32`). -/
def from_le_bytes (b : List Nat) : Nat :=
  match b with
  | [b0, b1, b2, b3] => b0 + 256 * (b1 + 256 * (b2 + 256 * b3))
  | _ => 0

/-- symphonia-core `read_quad_bytes`: four raw bytes. -/
def read_quad_bytes (s : MediaSourceStream) : Except Err (List Nat × MediaSourceStream) :=
  readBytes s 4

/-- symphonia-core `read_double_bytes`: two raw bytes. -/
def read_double_bytes (s : MediaSourceStream) : Except Err (List Nat × MediaSourceStream) :=
  readBytes s 2

/-- symphonia-core `read_u8`. -/
def read_u8 (s : MediaSourceStream) : Except Err (Nat × MediaSourceStream) :=
  match readBytes s 1 with
  | .error e => .error e
  | .ok (b, s') => .ok (b.headD 0, s')

/-- symphonia-core `read_u16` (little-endian). -/
def read_u16 (s : MediaSourceStream) : Except Err (Nat × MediaSourceStream) :=
  match readBytes s 2 with
  | .error e => .error e
  | .ok (b, s') => .ok (b.headD 0 + 256 * (b.tail.headD 0), s')

/-- symphonia-core `read_u32` (little-endian). -/
def read_u32 (s : MediaSourceStream) : Except Err (Nat × MediaSourceStream) :=
  match readBytes s 4 with
  | .error e => .error e
  | .ok (b, s') => .ok (from_le_bytes b, s')

/-- symphonia-core `ignore_bytes`: skip up to `n` bytes.  The cursor
advances as far as the source allows; the AIFF code discards the
returned `Result`, so only the positional effect is embedded. -/
def ignore_bytes (s : MediaSourceStream) (n : Nat) : MediaSourceStream :=
  { data := s.data, pos := min (s.pos + n) s.data.length }

/-- symphonia-core `read_buf` into a zero-initialised 10-byte buffer:
fills as many leading bytes as the source provides, leaves the rest 0.
The AIFF code discards the returned byte count. -/
def read_buf10 (s : MediaSourceStream) : List Nat × MediaSourceStream :=
  let k := min 10 (s.data.length - s.pos)
  ((s.data.drop s.pos).take k ++ List.replicate (10 - k) 0,
   { data := s.data, pos := s.pos + k })

/-- symphonia-core `read_boxed_slice`: read exactly `n` bytes of payload. -/
def read_boxed_slice (s : MediaSourceStream) (n : Nat) : Except Err (List Nat × MediaSourceStream) :=
  readBytes s n

/-- symphonia-core `seek_buffered_rev`: rewind the cursor by `n` bytes. -/
def seek_buffered_rev (s : MediaSourceStream) (n : Nat) : MediaSourceStream :=
  { data := s.data, pos := s.pos - n }

/-- symphonia-core `ensure_seekback_buffer`: guarantees `n` bytes of
rewind capability; no positional effect. -/
def ensure_seekback_buffer (s : MediaSourceStream) (_n : Nat) : MediaSourceStream :=
  s

/-- Codec identifiers used by the embedded readers (symphonia-core
`CodecType` constants; the numeric values are irrelevant to every claim,
so an inductive stands in for the opaque u32 constants). -/
inductive CodecType where
  | pcm_s16be
  | wavpack_pcm_i_16
  | wavpack_dsd
deriving DecidableEq

/-- The subset of symphonia-core `CodecParameters` set by the embedded
readers and relevant to the claims (sample rate and time base, which the
AIFF reader derives from an 80-bit extended float, are not modelled: no
claim mentions them). -/
structure CodecParams where
  codec : CodecType
  channels : Nat
  bits_per_sample : Nat
  n_frames : Option Nat
  frames_per_block : Nat
  max_frames_per_packet : Nat
deriving DecidableEq

/-- symphonia-core `Track`: numeric id plus codec parameters. -/
structure Track where
  id : Nat
  codec_params : CodecParams
deriving DecidableEq

/-- symphonia-core `Packet`: track id, pts and duration in frames, raw
byte payload. -/
structure Packet where
  track_id : Nat
  pts : Nat
  dur : Nat
  data : List Nat
deriving DecidableEq

theorem readBytes_ok {s : MediaSourceStream} {n : Nat} {b : List Nat} {s' : MediaSourceStream}
    (h : readBytes s n = .ok (b, s')) :
    s' = { data := s.data, pos := s.pos + n } ∧ s.pos + n ≤ s.data.length ∧
      b = (s.data.drop s.pos).take n := by
  unfold readBytes at h
  split at h
  · simp only [Except.ok.injEq, Prod.mk.injEq] at h
    exact ⟨h.2.symm, by assumption, h.1.symm⟩
  · simp at h

namespace WavPack

/-- The WavPack magic `b"wvpk"`. -/
def STREAM_MARKER : List Nat := [119, 118, 112, 107]

/-- Arbitrary per-packet cap, same value as MP3 (`MAX_FRAMES_PER_PACKET`). -/
def MAX_FRAMES_PER_PACKET : Nat := 1152

/-- Modelled from the spec: symphonia-core `Channels` (not under src/) is
a 32-bit channel-position bitmask; `from_bits` accepts any mask made of
the 32 defined positions and rejects anything else.  The spec states the
mask "covers the first N positions" for every count in 1..=32. -/
def Channels.from_bits (bits : Nat) : Option Nat :=
  if bits < 2 ^ 32 then some bits else none

/-- Embeds `try_channel_count_to_mask` of
symphonia-codec-wavpack/src/reader/mod.rs: accept 1..=32, build the mask
`((1u64 << count) - 1) as u32`, and otherwise (or when `from_bits`
rejects) return `Error::DecodeError("riff: invalid channel count")`. -/
def try_channel_count_to_mask (count : Nat) : Except Err Nat :=
  if 1 ≤ count ∧ count ≤ 32 then
    match Channels.from_bits ((2 ^ count - 1) % 2 ^ 32) with
    | some c => .ok c
    | none => .error (.DecodeError "riff: invalid channel count")
  else
    .error (.DecodeError "riff: invalid channel count")

/-- Embeds `combine_values(u32_value: u32, u8_value: u8) -> u64`:
`((u32_value as u64) << 8) | (u8_value as u64)`.  The shift stays below
2^40, so no u64 wrap occurs. -/
def combine_values (u32_value : Nat) (u8_value : Nat) : Nat :=
  (u32_value <<< 8) ||| u8_value

/-- PCM vs DSD encoding selector (flag bit 31). -/
inductive Encoding where
  | PCM
  | DSD
deriving DecidableEq

/-- Embeds the `Header` struct of the WavPack reader.  The field
`hybrid_noise_balanced` is computed and logged by `decode_header` but not
stored in the struct, so it does not appear here either. -/
structure Header where
  block_size : Nat
  version : Nat
  block_samples : Nat
  block_index : Nat
  total_samples : Option Nat
  crc : Nat
  stereo : Bool
  bits_per_sample : Nat
  hybrid_mode : Bool
  joint_stereo : Bool
  cross_channel_decorrelation : Bool
  hybrid_noise_shaping : Bool
  floating_point_data : Bool
  extended_size : Bool
  hybrid_mode_params_control_noise_level : Bool
  first_block_in_sequence : Bool
  last_block_in_sequence : Bool
  data_left_shift : Nat
  max_magnitude : Nat
  sample_rate : Nat
  contains_checksum : Bool
  irr : Bool
  false_stereo : Bool
  encoding : Encoding
deriving DecidableEq

/-- Header::SIZE = 4 * 8 bytes. -/
def Header.SIZE : Nat := 4 * 8

/-- The bit-depth extraction step of `decode_header`: match on
`flags & 0b11` and map 0,1,2,3 to 8,16,24,32 bits per sample, with a
defensive `unsupported_error` arm for any other value. -/
def bits_per_sample_of_flags (flags : Nat) : Except Err Nat :=
  match flags &&& 0b11 with
  | 0 => .ok 8
  | 1 => .ok 16
  | 2 => .ok 24
  | 3 => .ok 32
  | _ => .error (.Unsupported "wavpack: bitdepth")

/-- Embeds `decode_header(source) -> Result<Header>` of
symphonia-codec-wavpack/src/reader/mod.rs.  All reads are little-endian
(symphonia `read_u8`/`read_u16`/`read_u32`); the `debug!` logging has no
observable effect and is dropped. -/
def decode_header (source : MediaSourceStream) : Except Err (Header × MediaSourceStream) :=
  match read_quad_bytes source with
  | .error e => .error e
  | .ok (marker, s1) =>
    if marker ≠ STREAM_MARKER then .error (.Unsupported "wavpack: missing riff stream marker")
    else
      match read_u32 s1 with
      | .error e => .error e
      | .ok (ck_size, s2) =>
        match read_u16 s2 with
        | .error e => .error e
        | .ok (version, s3) =>
          if version ≠ 0x402 ∧ version ≠ 0x410 then
            .error (.Unsupported "wavpack: unsupported version")
          else
            match read_u8 s3 with
            | .error e => .error e
            | .ok (block_index_u8, s4) =>
              match read_u8 s4 with
              | .error e => .error e
              | .ok (total_samples_u8, s5) =>
                match read_u32 s5 with
                | .error e => .error e
                | .ok (total_samples_u32, s6) =>
                  match read_u32 s6 with
                  | .error e => .error e
                  | .ok (block_index_u32, s7) =>
                    match read_u32 s7 with
                    | .error e => .error e
                    | .ok (block_samples, s8) =>
                      let block_index := combine_values block_index_u32 block_index_u8
                      let total_samples :=
                        match block_index with
                        | 0 => some (combine_values total_samples_u32 total_samples_u8)
                        | _ => none
                      match read_u32 s8 with
                      | .error e => .error e
                      | .ok (flags, s9) =>
                        match read_u32 s9 with
                        | .error e => .error e
                        | .ok (crc, s10) =>
                          match bits_per_sample_of_flags flags with
                          | .error e => .error e
                          | .ok bits_per_sample =>
                            .ok
                              ({ block_size := ck_size + 8
                                 version := version
                                 block_samples := block_samples
                                 block_index := block_index
                                 total_samples := total_samples
                                 crc := crc
                                 stereo := ((flags >>> 2) &&& 0b1) == 0
                                 bits_per_sample := bits_per_sample
                                 hybrid_mode := ((flags >>> 3) &&& 0b1) == 1
                                 joint_stereo := ((flags >>> 4) &&& 0b1) == 1
                                 cross_channel_decorrelation := ((flags >>> 5) &&& 0b1) == 1
                                 hybrid_noise_shaping := ((flags >>> 6) &&& 0b1) == 1
                                 floating_point_data := ((flags >>> 7) &&& 0b1) == 1
                                 extended_size := ((flags >>> 8) &&& 0b1) == 1
                                 hybrid_mode_params_control_noise_level := ((flags >>> 9) &&& 0b1) == 0
                                 first_block_in_sequence := ((flags >>> 11) &&& 0b1) == 1
                                 last_block_in_sequence := ((flags >>> 12) &&& 0b1) == 1
                                 data_left_shift := (flags >>> 13) &&& 0b11111
                                 max_magnitude := (flags >>> 18) &&& 0b11111
                                 sample_rate := (flags >>> 23) &&& 0b1111
                                 contains_checksum := ((flags >>> 28) &&& 0b1) == 1
                                 irr := ((flags >>> 29) &&& 0b1) == 1
                                 false_stereo := ((flags >>> 30) &&& 0b1) == 1
                                 encoding :=
                                   match (flags >>> 31) &&& 0b1 with
                                   | 0 => Encoding.PCM
                                   | _ => Encoding.DSD },
                               s10)

/-- Embeds the `WavPackReader` struct (cues and metadata are empty and
unused by every claim). -/
structure WavPackReader where
  reader : MediaSourceStream
  tracks : List Track
  data_start_pos : Nat
deriving DecidableEq

/-- Embeds `WavPackReader::try_new`: remember the original position,
guarantee `Header::SIZE` bytes of rewind, decode the header, rewind by
`Header::SIZE`, build the single track, and store
`data_start_pos = original_pos + header.block_index`. -/
def try_new (source0 : MediaSourceStream) : Except Err WavPackReader :=
  let original_pos := source0.pos
  let source := ensure_seekback_buffer source0 Header.SIZE
  match decode_header source with
  | .error e => .error e
  | .ok (header, s1) =>
    let s2 := seek_buffered_rev s1 Header.SIZE
    let codec :=
      match header.encoding with
      | .PCM => CodecType.wavpack_pcm_i_16
      | .DSD => CodecType.wavpack_dsd
    let n_channels : Nat :=
      match header.stereo with
      | true => 2
      | false => 1
    match try_channel_count_to_mask n_channels with
    | .error e => .error e
    | .ok channels =>
      let data_start_pos := original_pos + header.block_index
      .ok
        { reader := s2
          tracks :=
            [{ id := 0
               codec_params :=
                 { codec := codec
                   channels := channels
                   bits_per_sample := header.bits_per_sample
                   n_frames := none
                   frames_per_block := header.block_samples
                   max_frames_per_packet := MAX_FRAMES_PER_PACKET * header.block_samples } }]
          data_start_pos := data_start_pos }

end WavPack

namespace Aiff

/-- The chunk and form-type magics of symphonia-format-aiff/src/lib.rs. -/
def AIFF_STREAM_MARKER : List Nat := [70, 79, 82, 77]

/-- Form type `b"AIFF"`. -/
def AIFF_FORM_TYPE : List Nat := [65, 73, 70, 70]

/-- Form type `b"AIFC"` (compressed, unsupported). -/
def COMPRESSED_FORM_TYPE : List Nat := [65, 73, 70, 67]

/-- Chunk id `b"COMM"`. -/
def COM_CHUNK_ID : List Nat := [67, 79, 77, 77]

/-- Chunk id `b"SSND"`. -/
def SSND_CHUNK_ID : List Nat := [83, 83, 78, 68]

/-- `AIFF_MAX_FRAMES_PER_PACKET`. -/
def AIFF_MAX_FRAMES_PER_PACKET : Nat := 1152

/-- Embeds `PacketInfo` of symphonia-format-aiff. -/
structure PacketInfo where
  block_size : Nat
  frames_per_block : Nat
  max_blocks_per_packet : Nat
deriving DecidableEq

/-- Embeds `PacketInfo::get_frames`: `data_len / block_size * frames_per_block`. -/
def PacketInfo.get_frames (p : PacketInfo) (data_len : Nat) : Nat :=
  data_len / p.block_size * p.frames_per_block

/-- Embeds `CommonChunk`.  The source stores the sample rate as
`Extended::from_be_bytes(bytes).to_f64() as u32`; the 80-bit-float
conversion is floating point and no claim mentions the value, so the ten
raw bytes are kept instead. -/
structure CommonChunk where
  num_channels : Int
  num_sample_frames : Nat
  sample_size : Int
  sample_rate_bytes : List Nat
deriving DecidableEq

/-- Embeds `SoundChunk`. -/
structure SoundChunk where
  offset : Nat
  block_size : Nat
deriving DecidableEq

/-- Embeds `UnknownChunk`: identity plus declared size. -/
structure UnknownChunk where
  id : List Nat
  data_size : Nat
deriving DecidableEq

/-- The mutable state of the chunk-directory loop inside
`AiffReader::try_new`: the cursor plus the three chunk accumulators. -/
structure LoopState where
  s : MediaSourceStream
  common_chunk : CommonChunk
  sound_chunk : SoundChunk
  unknown_chunks : List UnknownChunk
deriving DecidableEq

/-- i64-style wrapping cast of an i16 product into u64
(`(num_channels * sample_size) as u64`). -/
def intToU64 (v : Int) : Nat :=
  (v % (2 ^ 64 : Int)).toNat

/-- One iteration of the chunk-directory loop of `AiffReader::try_new`
(lines 133-201 of symphonia-format-aiff/src/lib.rs): check the bound,
read an id, dispatch on COMM / SSND / unknown.  `Sum.inl` continues the
loop, `Sum.inr` is the `break` on the terminal SSND chunk.  Reaching the
declared total size without SSND is a `panic!` in the source. -/
def chunkStep (file_size : Nat) (st : LoopState) : Except Err (LoopState ⊕ LoopState) :=
  if st.s.pos ≥ file_size then
    .error (.Panic "aiff: No SSND chunk was found")
  else
    match read_quad_bytes st.s with
    | .error e => .error e
    | .ok (id, s1) =>
      if id = COM_CHUNK_ID then
        match read_quad_bytes s1 with
        | .error e => .error e
        | .ok (_data_size, s2) =>
          match read_double_bytes s2 with
          | .error e => .error e
          | .ok (ncb, s3) =>
            match read_quad_bytes s3 with
            | .error e => .error e
            | .ok (nsfb, s4) =>
              match read_double_bytes s4 with
              | .error e => .error e
              | .ok (ssb, s5) =>
                let (rate_bytes, s6) := read_buf10 s5
                .ok (.inl
                  { st with
                    s := s6
                    common_chunk :=
                      { num_channels := i16_from_be_bytes ncb
                        num_sample_frames := from_be_bytes nsfb
                        sample_size := i16_from_be_bytes ssb
                        sample_rate_bytes := rate_bytes } })
      else if id = SSND_CHUNK_ID then
        match read_quad_bytes s1 with
        | .error e => .error e
        | .ok (_data_size, s2) =>
          match read_quad_bytes s2 with
          | .error e => .error e
          | .ok (offb, s3) =>
            match read_quad_bytes s3 with
            | .error e => .error e
            | .ok (bsb, s4) =>
              let offset := from_be_bytes offb
              let block_size := from_be_bytes bsb
              if offset ≠ 0 ∨ block_size ≠ 0 then
                .error (.Unsupported "aiff: does not support block aligning")
              else
                .ok (.inr
                  { st with
                    s := s4
                    sound_chunk := { offset := offset, block_size := block_size } })
      else
        match read_quad_bytes s1 with
        | .error e => .error e
        | .ok (dsb, s2) =>
          let data_size := from_be_bytes dsb
          let s3 := ignore_bytes s2 data_size
          .ok (.inl
            { st with
              s := s3
              unknown_chunks := st.unknown_chunks ++ [{ id := id, data_size := data_size }] })

/-- The chunk-directory loop, fuelled: each continuing iteration consumes
at least 8 bytes of the source, so fuel `data.length + 1` is always
sufficient and the fuel-exhaustion arm is unreachable from `try_new`. -/
def chunkLoop (fuel : Nat) (file_size : Nat) (st : LoopState) : Except Err LoopState :=
  match fuel with
  | 0 => .error (.IoError "aiff: loop fuel exhausted")
  | fuel' + 1 =>
    match chunkStep file_size st with
    | .error e => .error e
    | .ok (.inl st') => chunkLoop fuel' file_size st'
    | .ok (.inr st') => .ok st'

/-- Embeds the `AiffReader` struct (cues and metadata are empty and
unused by every claim). -/
structure AiffReader where
  reader : MediaSourceStream
  tracks : List Track
  packet_info : PacketInfo
  data_start_pos : Nat
  data_end_pos : Nat
deriving DecidableEq

/-- The channel-count match of `AiffReader::try_new` (lines 203-209):
1 maps to FRONT_LEFT, 2 to FRONT_LEFT | FRONT_RIGHT, anything else is
`unsupported_error`.  The two mask constants come from symphonia-core:
FRONT_LEFT is bit 0 and FRONT_RIGHT is bit 1. -/
def channelsOf (num_channels : Int) : Except Err Nat :=
  if num_channels = 1 then .ok 0b1
  else if num_channels = 2 then .ok 0b11
  else .error (.Unsupported "aiff: unsupported number of channels")

/-- Embeds `AiffReader::try_new`: FORM marker, declared size, form type,
the chunk loop, channel/codec validation, `PacketInfo` construction, and
the final reader with `data_start_pos = source.pos()` and
`data_end_pos = file_size - 1`. -/
def try_new (source : MediaSourceStream) : Except Err AiffReader :=
  match read_quad_bytes source with
  | .error e => .error e
  | .ok (marker, s1) =>
    if marker ≠ AIFF_STREAM_MARKER then
      .error (.Unsupported "aiff: missing form stream marker")
    else
      match read_quad_bytes s1 with
      | .error e => .error e
      | .ok (sizeb, s2) =>
        let form_data_size := from_be_bytes sizeb
        let file_size := form_data_size + 8
        match read_quad_bytes s2 with
        | .error e => .error e
        | .ok (form_type, s3) =>
          if form_type = COMPRESSED_FORM_TYPE then
            .error (.Unsupported "aiff: compressed audio not supported")
          else if form_type ≠ AIFF_FORM_TYPE then
            .error (.Unsupported "aiff: unsupported form type")
          else
            let st0 : LoopState :=
              { s := s3
                common_chunk :=
                  { num_channels := 0
                    num_sample_frames := 0
                    sample_size := 0
                    sample_rate_bytes := List.replicate 10 0 }
                sound_chunk := { offset := 0, block_size := 0 }
                unknown_chunks := [] }
            match chunkLoop (s3.data.length + 1) file_size st0 with
            | .error e => .error e
            | .ok st =>
              match channelsOf st.common_chunk.num_channels with
              | .error e => .error e
              | .ok channels =>
                if st.common_chunk.sample_size ≠ 16 then
                  .error (.DecodeError "aiff: bits per sample for fmt_pcm must be 8, 16, 24 or 32 bits")
                else
                  let packet_info : PacketInfo :=
                    { block_size :=
                        intToU64 (st.common_chunk.num_channels * st.common_chunk.sample_size) / 8
                      frames_per_block := 1
                      max_blocks_per_packet := AIFF_MAX_FRAMES_PER_PACKET }
                  let max_frames_per_packet :=
                    packet_info.max_blocks_per_packet * packet_info.frames_per_block
                  let codec_params : CodecParams :=
                    { codec := CodecType.pcm_s16be
                      channels := channels
                      bits_per_sample := (st.common_chunk.sample_size % (2 ^ 32 : Int)).toNat
                      n_frames := some st.common_chunk.num_sample_frames
                      frames_per_block := packet_info.frames_per_block
                      max_frames_per_packet := max_frames_per_packet }
                  let data_start_pos := st.s.pos
                  .ok
                    { reader := st.s
                      tracks := [{ id := 0, codec_params := codec_params }]
                      packet_info := packet_info
                      data_start_pos := data_start_pos
                      data_end_pos := file_size - 1 }

/-- The whole-blocks-remaining computation of `AiffReader::next_packet`:
`(data_end_pos - pos) / block_size` when the cursor is before
`data_end_pos`, zero otherwise. -/
def num_blocks_left (r : AiffReader) : Nat :=
  if r.reader.pos < r.data_end_pos then
    (r.data_end_pos - r.reader.pos) / r.packet_info.block_size
  else
    0

/-- Embeds `AiffReader::next_packet` (lines 258-293): guard on tracks and
block size, compute the remaining whole blocks, signal end-of-stream at
zero, otherwise read `min(num_blocks_left, max_blocks_per_packet)` blocks
and build the packet with `pts = get_frames(pos - data_start_pos)`. -/
def next_packet (r : AiffReader) : Except Err (Packet × AiffReader) :=
  let pos := r.reader.pos
  if r.tracks = [] then
    .error (.DecodeError "aiff: no tracks")
  else if r.packet_info.block_size = 0 then
    .error (.DecodeError "aiff: block size is 0")
  else
    let nbl := num_blocks_left r
    if nbl = 0 then
      .error .EndOfStream
    else
      let blocks_per_packet := min nbl r.packet_info.max_blocks_per_packet
      let dur := blocks_per_packet * r.packet_info.frames_per_block
      let packet_len := blocks_per_packet * r.packet_info.block_size
      match read_boxed_slice r.reader packet_len with
      | .error e => .error e
      | .ok (packet_buf, s') =>
        let pts := r.packet_info.get_frames (pos - r.data_start_pos)
        .ok ({ track_id := 0, pts := pts, dur := dur, data := packet_buf },
             { r with reader := s' })

end Aiff

namespace Isomp4

/-- Modelled from the spec: an `AtomHeader` is a "type tag (4-byte code),
declared size (inclusive of header), stream position" (the `AtomHeader`
type itself lives outside src/; only its role in `TrafAtom::read` is
needed here, so the tag is kept abstract as part of `ChildAtom`). -/
structure AtomHeader where
  atom_size : Nat
  stream_pos : Nat
deriving DecidableEq

/-- Modelled from the spec: the payload of a track-fragment-header
(`tfhd`) child atom, the composite's single mandatory child ("fragment
header fields"); its internal fields are irrelevant to the claim. -/
structure TfhdAtom where
  payload : Nat
deriving DecidableEq

/-- Modelled from the spec: the payload of a track-fragment-run (`trun`)
child atom, the composite's optional repeated child ("timing/size run
children"). -/
structure TrunAtom where
  payload : Nat
deriving DecidableEq

/-- Modelled from the spec: one successfully iterated child of the
composite, as produced by the `AtomIterator` (outside src/): the
dispatch on `header.atype` in `TrafAtom::read` sees either the mandatory
header child, an optional run child, or some other type tag (skipped). -/
inductive ChildAtom where
  | tfhd (a : TfhdAtom)
  | trun (a : TrunAtom)
  | other
deriving DecidableEq

/-- Embeds the `TrafAtom` struct: header, the mandatory `tfhd`, and the
list of `trun` children. -/
structure TrafAtom where
  header : AtomHeader
  tfhd : TfhdAtom
  truns : List TrunAtom
deriving DecidableEq

/-- The `while let Some(header) = iter.next()?` loop of
`TrafAtom::read`: dispatch each child, remembering the last `tfhd` and
appending each `trun`; other type tags are ignored. -/
def readLoop (tfhd : Option TfhdAtom) (truns : List TrunAtom) :
    List ChildAtom → Option TfhdAtom × List TrunAtom
  | [] => (tfhd, truns)
  | ChildAtom.tfhd a :: rest => readLoop (some a) truns rest
  | ChildAtom.trun a :: rest => readLoop tfhd (truns ++ [a]) rest
  | ChildAtom.other :: rest => readLoop tfhd truns rest

/-- Embeds `TrafAtom::read` (symphonia-format-isomp4/src/atoms/traf.rs):
iterate the children, then validate that the mandatory `tfhd` child was
present, returning `decode_error("missing tfhd atom")` otherwise. -/
def TrafAtom.read (header : AtomHeader) (children : List ChildAtom) : Except Err TrafAtom :=
  match readLoop none [] children with
  | (none, _) => .error (.DecodeError "missing tfhd atom")
  | (some tfhd, truns) => .ok { header := header, tfhd := tfhd, truns := truns }

end Isomp4

theorem readBytes_ok_iff {s : MediaSourceStream} {n : Nat} {b : List Nat} {s' : MediaSourceStream} :
    readBytes s n = .ok (b, s') ↔
      s.pos + n ≤ s.data.length ∧ b = (s.data.drop s.pos).take n ∧
        s' = { data := s.data, pos := s.pos + n } := by
  unfold readBytes
  split
  · simp only [Except.ok.injEq, Prod.mk.injEq]
    constructor
    · rintro ⟨hb, hs⟩
      exact ⟨by assumption, hb.symm, hs.symm⟩
    · rintro ⟨-, hb, hs⟩
      exact ⟨hb.symm, hs.symm⟩
  · constructor
    · intro h
      exact Except.noConfusion h
    · rintro ⟨hle, -, -⟩
      exact absurd hle (by assumption)

theorem read_quad_bytes_ok_iff {s : MediaSourceStream} {b : List Nat} {s' : MediaSourceStream} :
    read_quad_bytes s = .ok (b, s') ↔
      s.pos + 4 ≤ s.data.length ∧ b = (s.data.drop s.pos).take 4 ∧
        s' = { data := s.data, pos := s.pos + 4 } :=
  readBytes_ok_iff

theorem read_double_bytes_ok_iff {s : MediaSourceStream} {b : List Nat} {s' : MediaSourceStream} :
    read_double_bytes s = .ok (b, s') ↔
      s.pos + 2 ≤ s.data.length ∧ b = (s.data.drop s.pos).take 2 ∧
        s' = { data := s.data, pos := s.pos + 2 } :=
  readBytes_ok_iff

theorem read_u8_ok_iff {s : MediaSourceStream} {v : Nat} {s' : MediaSourceStream} :
    read_u8 s = .ok (v, s') ↔
      s.pos + 1 ≤ s.data.length ∧ v = ((s.data.drop s.pos).take 1).headD 0 ∧
        s' = { data := s.data, pos := s.pos + 1 } := by
  unfold read_u8
  cases hq : readBytes s 1 with
  | error e =>
    unfold readBytes at hq
    split at hq
    · exact Except.noConfusion hq
    · constructor
      · intro h
        exact Except.noConfusion h
      · rintro ⟨hle, -, -⟩
        exact absurd hle (by assumption)
  | ok p =>
    obtain ⟨b, t⟩ := p
    obtain ⟨hle, hb, ht⟩ := readBytes_ok_iff.mp hq
    subst hb ht
    simp only [Except.ok.injEq, Prod.mk.injEq]
    constructor
    · rintro ⟨hv, hs⟩
      exact ⟨hle, hv.symm, hs.symm⟩
    · rintro ⟨-, hv, hs⟩
      exact ⟨hv.symm, hs.symm⟩

theorem read_u16_ok_iff {s : MediaSourceStream} {v : Nat} {s' : MediaSourceStream} :
    read_u16 s = .ok (v, s') ↔
      s.pos + 2 ≤ s.data.length ∧
        v = ((s.data.drop s.pos).take 2).headD 0 +
              256 * (((s.data.drop s.pos).take 2).tail.headD 0) ∧
        s' = { data := s.data, pos := s.pos + 2 } := by
  unfold read_u16
  cases hq : readBytes s 2 with
  | error e =>
    unfold readBytes at hq
    split at hq
    · exact Except.noConfusion hq
    · constructor
      · intro h
        exact Except.noConfusion h
      · rintro ⟨hle, -, -⟩
        exact absurd hle (by assumption)
  | ok p =>
    obtain ⟨b, t⟩ := p
    obtain ⟨hle, hb, ht⟩ := readBytes_ok_iff.mp hq
    subst hb ht
    simp only [Except.ok.injEq, Prod.mk.injEq]
    constructor
    · rintro ⟨hv, hs⟩
      exact ⟨hle, hv.symm, hs.symm⟩
    · rintro ⟨-, hv, hs⟩
      exact ⟨hv.symm, hs.symm⟩

theorem read_u32_ok_iff {s : MediaSourceStream} {v : Nat} {s' : MediaSourceStream} :
    read_u32 s = .ok (v, s') ↔
      s.pos + 4 ≤ s.data.length ∧ v = from_le_bytes ((s.data.drop s.pos).take 4) ∧
        s' = { data := s.data, pos := s.pos + 4 } := by
  unfold read_u32
  cases hq : readBytes s 4 with
  | error e =>
    unfold readBytes at hq
    split at hq
    · exact Except.noConfusion hq
    · constructor
      · intro h
        exact Except.noConfusion h
      · rintro ⟨hle, -, -⟩
        exact absurd hle (by assumption)
  | ok p =>
    obtain ⟨b, t⟩ := p
    obtain ⟨hle, hb, ht⟩ := readBytes_ok_iff.mp hq
    subst hb ht
    simp only [Except.ok.injEq, Prod.mk.injEq]
    constructor
    · rintro ⟨hv, hs⟩
      exact ⟨hle, hv.symm, hs.symm⟩
    · rintro ⟨-, hv, hs⟩
      exact ⟨hv.symm, hs.symm⟩

/-- C2: the claim states that the WavPack header decoder combines a high
byte h and a low 32-bit word l of a split 40-bit field as
`(h <<< 32) ||| l`, so that (h, l) = (0x01, 0x00000000) gives 0x100000000
and (h, l) = (0x00, 0x00000001) gives 0x1.  The source's
`combine_values(low32, high8)` instead computes `(low32 <<< 8) ||| high8`:
on those same two inputs it yields 0x1 and 0x100, contradicting the claim
(and the source's own comments calling the byte the "upper 8 bits" of the
40-bit field). -/
theorem C2_combine_values_divergence :
    WavPack.combine_values 0 1 = 0x1 ∧
    WavPack.combine_values 1 0 = 0x100 ∧
    WavPack.combine_values 0 1 ≠ 0x100000000 ∧
    WavPack.combine_values 1 0 ≠ 0x1 := by
  refine ⟨rfl, rfl, ?_, ?_⟩ <;> decide

/-- C7: for every flag word, the bit-depth extraction of `decode_header`
maps the 2-bit code `flags &&& 0b11` through 0 ↦ 8, 1 ↦ 16, 2 ↦ 24,
3 ↦ 32, always returns `ok`, never the defensive Unsupported arm, and the
result is always one of {8, 16, 24, 32}. -/
theorem C7_bits_per_sample_total (flags : Nat) :
    ∃ v, WavPack.bits_per_sample_of_flags flags = .ok v ∧
      v = 8 * ((flags &&& 0b11) + 1) ∧
      (v = 8 ∨ v = 16 ∨ v = 24 ∨ v = 32) := by
  have h : flags &&& 0b11 ≤ 3 := Nat.and_le_right
  have h4 : flags &&& 0b11 = 0 ∨ flags &&& 0b11 = 1 ∨ flags &&& 0b11 = 2 ∨
      flags &&& 0b11 = 3 := by omega
  refine ⟨8 * ((flags &&& 0b11) + 1), ?_, rfl, by omega⟩
  rcases h4 with h4 | h4 | h4 | h4 <;>
    simp [WavPack.bits_per_sample_of_flags, h4]

theorem decode_header_consumes {s : MediaSourceStream} {hd : WavPack.Header}
    {s' : MediaSourceStream} (h : WavPack.decode_header s = .ok (hd, s')) :
    s'.data = s.data ∧ s'.pos = s.pos + WavPack.Header.SIZE := by
  unfold WavPack.decode_header at h
  repeat first | exact Except.noConfusion h | split at h
  all_goals
    injection h with h'
  all_goals
    rw [Prod.mk.injEq] at h'
  all_goals
    obtain ⟨-, hs⟩ := h'
  all_goals
    subst hs
  all_goals
    simp_all only [read_quad_bytes_ok_iff, read_u8_ok_iff, read_u16_ok_iff, read_u32_ok_iff,
      WavPack.Header.SIZE]
  all_goals
    exact ⟨trivial, trivial⟩

instance {ε : Type _} {α : Type _} [DecidableEq ε] [DecidableEq α] :
    DecidableEq (Except ε α) := fun a b =>
  match a, b with
  | .error e1, .error e2 =>
    if h : e1 = e2 then .isTrue (by rw [h]) else
      .isFalse (by intro hc; injection hc; contradiction)
  | .ok v1, .ok v2 =>
    if h : v1 = v2 then .isTrue (by rw [h]) else
      .isFalse (by intro hc; injection hc; contradiction)
  | .error _, .ok _ => .isFalse (fun hc => Except.noConfusion hc)
  | .ok _, .error _ => .isFalse (fun hc => Except.noConfusion hc)

/-- C10: whenever the header peek succeeds, `WavPackReader::try_new`
succeeds, stores `data_start_pos` equal to the position at which open
began plus the header's combined 40-bit block-index field (a sample
index added to a byte position), and rewinds the cursor by exactly the
32-byte `Header::SIZE` after the peek, back to the original position. -/
theorem C10_try_new_data_start (s : MediaSourceStream) (hd : WavPack.Header)
    (s' : MediaSourceStream) (h : WavPack.decode_header s = .ok (hd, s')) :
    s'.pos = s.pos + WavPack.Header.SIZE ∧
    ∃ r, WavPack.try_new s = .ok r ∧
      r.data_start_pos = s.pos + hd.block_index ∧
      r.reader.pos = s'.pos - WavPack.Header.SIZE ∧
      r.reader.pos = s.pos := by
  obtain ⟨hdata, hpos⟩ := decode_header_consumes h
  refine ⟨hpos, ?_⟩
  have h1 : WavPack.try_channel_count_to_mask 1 = .ok 1 := rfl
  have h2 : WavPack.try_channel_count_to_mask 2 = .ok 3 := rfl
  unfold WavPack.try_new ensure_seekback_buffer
  simp only [h]
  cases hstereo : hd.stereo <;>
    simp only [hstereo, h1, h2, seek_buffered_rev] <;>
    exact ⟨_, rfl, rfl, rfl, by simp only [hpos, WavPack.Header.SIZE]; omega⟩

/-- A concrete 32-byte WavPack stream: magic, ck_size 24 (block size 32),
version 0x402, zero split-field bytes and words, zero block samples,
zero flags, zero crc. -/
def wvBytesW : List Nat :=
  [119, 118, 112, 107] ++ [24, 0, 0, 0] ++ [2, 4] ++ [0] ++ [0] ++
    [0, 0, 0, 0] ++ [0, 0, 0, 0] ++ [0, 0, 0, 0] ++ [0, 0, 0, 0] ++ [0, 0, 0, 0]

/-- The header that `decode_header` produces on `wvBytesW`. -/
def wvHeaderW : WavPack.Header :=
  { block_size := 32
    version := 0x402
    block_samples := 0
    block_index := 0
    total_samples := some 0
    crc := 0
    stereo := true
    bits_per_sample := 8
    hybrid_mode := false
    joint_stereo := false
    cross_channel_decorrelation := false
    hybrid_noise_shaping := false
    floating_point_data := false
    extended_size := false
    hybrid_mode_params_control_noise_level := true
    first_block_in_sequence := false
    last_block_in_sequence := false
    data_left_shift := 0
    max_magnitude := 0
    sample_rate := 0
    contains_checksum := false
    irr := false
    false_stereo := false
    encoding := .PCM }

/-- C10 witness: the theorem applied to the concrete stream `wvBytesW`,
whose header peek succeeds with `wvHeaderW`. -/
theorem C10_try_new_data_start_witness :
    MediaSourceStream.pos ⟨wvBytesW, 32⟩ =
        MediaSourceStream.pos ⟨wvBytesW, 0⟩ + WavPack.Header.SIZE ∧
    ∃ r, WavPack.try_new ⟨wvBytesW, 0⟩ = .ok r ∧
      r.data_start_pos = MediaSourceStream.pos ⟨wvBytesW, 0⟩ + wvHeaderW.block_index ∧
      r.reader.pos = MediaSourceStream.pos ⟨wvBytesW, 32⟩ - WavPack.Header.SIZE ∧
      r.reader.pos = MediaSourceStream.pos ⟨wvBytesW, 0⟩ :=
  C10_try_new_data_start ⟨wvBytesW, 0⟩ wvHeaderW ⟨wvBytesW, 32⟩ (by decide)

/-- C3: an AIFF input whose chunk directory reaches the declared total
size without an SSND chunk.  On the 12-byte input consisting only of
`FORM`, a declared form-data size of 4 (so `file_size` = 12) and the
`AIFF` form type, the chunk loop's bound check fires immediately — but
the source `panic!`s ("aiff: No SSND chunk was found") instead of
returning the Decode error ("missing terminal chunk") the claim
requires. -/
theorem C3_missing_ssnd_panics :
    Aiff.try_new ⟨[70, 79, 82, 77, 0, 0, 0, 4, 65, 73, 70, 70], 0⟩ =
      .error (.Panic "aiff: No SSND chunk was found") := by
  decide

/-- A well-formed minimal AIFF file: FORM size 48, form type AIFF, a COMM
chunk declaring 1 channel, 1 sample frame, 16-bit samples, and an SSND
chunk (offset 0, block size 0) whose payload holds exactly the 2 bytes
of that one 16-bit mono frame, ending exactly at the declared total
size. -/
def aiffBytesW : List Nat :=
  [70, 79, 82, 77] ++ [0, 0, 0, 48] ++ [65, 73, 70, 70] ++
    [67, 79, 77, 77] ++ [0, 0, 0, 18] ++ [0, 1] ++ [0, 0, 0, 1] ++ [0, 16] ++
      [0, 0, 0, 0, 0, 0, 0, 0, 0, 0] ++
    [83, 83, 78, 68] ++ [0, 0, 0, 10] ++ [0, 0, 0, 0] ++ [0, 0, 0, 0] ++ [171, 205]

/-- The declared total frame count of the single track, if open
succeeded. -/
def firstTrackNFrames (e : Except Err Aiff.AiffReader) : Option Nat :=
  match e with
  | .ok r =>
    match r.tracks with
    | t :: _ => t.codec_params.n_frames
    | [] => none
  | .error _ => none

/-- C1: on the well-formed one-frame file `aiffBytesW`, open succeeds and
declares a total frame count of 1 (the COMM chunk's num_sample_frames),
yet the very first `next_packet` call already signals end-of-stream, so
the sum of all packet durations is 0, not 1: the claim's
total-duration conjunct fails.  The cause is
`data_end_pos = file_size - 1` in `try_new`, which drops the final byte
of the data region from the whole-blocks-remaining computation. -/
theorem C1_total_duration_shortfall :
    firstTrackNFrames (Aiff.try_new ⟨aiffBytesW, 0⟩) = some 1 ∧
    (Aiff.try_new ⟨aiffBytesW, 0⟩ >>= Aiff.next_packet) = .error .EndOfStream := by
  constructor <;> rfl

/-- C4: for every open AIFF reader with a positive block size, if zero
whole blocks remain `next_packet` signals end-of-stream (not a Decode or
Unsupported error); otherwise, when the source holds the required bytes,
it reads exactly `min(remainingBlocks, maxBlocksPerPacket)` blocks of
raw bytes and returns a packet with
`duration = blocksInPacket * framesPerBlock` and
`pts = floor(bytesConsumedSinceDataStart / blockSize) * framesPerBlock`,
advancing the cursor by exactly the packet's bytes. -/
theorem C4_next_packet_spec (r : Aiff.AiffReader)
    (htr : r.tracks ≠ [])
    (hbs : 0 < r.packet_info.block_size) :
    (Aiff.num_blocks_left r = 0 → Aiff.next_packet r = .error .EndOfStream) ∧
    (0 < Aiff.num_blocks_left r →
      r.reader.pos + min (Aiff.num_blocks_left r) r.packet_info.max_blocks_per_packet *
          r.packet_info.block_size ≤ r.reader.data.length →
      ∃ pkt r', Aiff.next_packet r = .ok (pkt, r') ∧
        pkt.dur = min (Aiff.num_blocks_left r) r.packet_info.max_blocks_per_packet *
          r.packet_info.frames_per_block ∧
        pkt.pts = (r.reader.pos - r.data_start_pos) / r.packet_info.block_size *
          r.packet_info.frames_per_block ∧
        pkt.data = (r.reader.data.drop r.reader.pos).take
          (min (Aiff.num_blocks_left r) r.packet_info.max_blocks_per_packet *
            r.packet_info.block_size) ∧
        pkt.data.length = min (Aiff.num_blocks_left r) r.packet_info.max_blocks_per_packet *
          r.packet_info.block_size ∧
        r'.reader.data = r.reader.data ∧
        r'.reader.pos = r.reader.pos +
          min (Aiff.num_blocks_left r) r.packet_info.max_blocks_per_packet *
            r.packet_info.block_size ∧
        r'.tracks = r.tracks ∧ r'.packet_info = r.packet_info ∧
        r'.data_start_pos = r.data_start_pos ∧ r'.data_end_pos = r.data_end_pos) := by
  have hbne : ¬ r.packet_info.block_size = 0 := by omega
  constructor
  · intro h0
    simp only [Aiff.next_packet]
    rw [if_neg htr, if_neg hbne, if_pos h0]
  · intro h0 havail
    have hne : ¬ Aiff.num_blocks_left r = 0 := by omega
    refine ⟨⟨0,
        (r.reader.pos - r.data_start_pos) / r.packet_info.block_size *
          r.packet_info.frames_per_block,
        min (Aiff.num_blocks_left r) r.packet_info.max_blocks_per_packet *
          r.packet_info.frames_per_block,
        (r.reader.data.drop r.reader.pos).take
          (min (Aiff.num_blocks_left r) r.packet_info.max_blocks_per_packet *
            r.packet_info.block_size)⟩,
      { r with reader :=
          { data := r.reader.data
            pos := r.reader.pos +
              min (Aiff.num_blocks_left r) r.packet_info.max_blocks_per_packet *
                r.packet_info.block_size } },
      ?_, rfl, rfl, rfl, ?_, rfl, rfl, rfl, rfl, rfl, rfl⟩
    · simp only [Aiff.next_packet]
      rw [if_neg htr, if_neg hbne, if_neg hne]
      unfold read_boxed_slice readBytes Aiff.PacketInfo.get_frames
      rw [if_pos havail]
    · simp only [List.length_take, List.length_drop]
      omega

/-- The single track of the concrete AIFF readers used as witnesses. -/
def aiffTrackW : Track :=
  { id := 0
    codec_params :=
      { codec := .pcm_s16be
        channels := 1
        bits_per_sample := 16
        n_frames := some 2
        frames_per_block := 1
        max_frames_per_packet := 1152 } }

/-- A concrete open AIFF reader over a 4-byte data region of two 2-byte
blocks, cursor at the data start. -/
def aiffReaderW : Aiff.AiffReader :=
  { reader := ⟨[1, 2, 3, 4], 0⟩
    tracks := [aiffTrackW]
    packet_info := { block_size := 2, frames_per_block := 1, max_blocks_per_packet := 1152 }
    data_start_pos := 0
    data_end_pos := 4 }

/-- C4 witness: the theorem applied to `aiffReaderW`, where two whole
blocks remain and the source holds all four bytes. -/
theorem C4_next_packet_spec_witness :
    ∃ pkt r', Aiff.next_packet aiffReaderW = .ok (pkt, r') ∧
      pkt.dur = min (Aiff.num_blocks_left aiffReaderW)
          aiffReaderW.packet_info.max_blocks_per_packet *
        aiffReaderW.packet_info.frames_per_block ∧
      pkt.pts = (aiffReaderW.reader.pos - aiffReaderW.data_start_pos) /
          aiffReaderW.packet_info.block_size * aiffReaderW.packet_info.frames_per_block ∧
      pkt.data = (aiffReaderW.reader.data.drop aiffReaderW.reader.pos).take
        (min (Aiff.num_blocks_left aiffReaderW)
            aiffReaderW.packet_info.max_blocks_per_packet *
          aiffReaderW.packet_info.block_size) ∧
      pkt.data.length = min (Aiff.num_blocks_left aiffReaderW)
          aiffReaderW.packet_info.max_blocks_per_packet *
        aiffReaderW.packet_info.block_size ∧
      r'.reader.data = aiffReaderW.reader.data ∧
      r'.reader.pos = aiffReaderW.reader.pos +
        min (Aiff.num_blocks_left aiffReaderW)
            aiffReaderW.packet_info.max_blocks_per_packet *
          aiffReaderW.packet_info.block_size ∧
      r'.tracks = aiffReaderW.tracks ∧ r'.packet_info = aiffReaderW.packet_info ∧
      r'.data_start_pos = aiffReaderW.data_start_pos ∧
      r'.data_end_pos = aiffReaderW.data_end_pos :=
  (C4_next_packet_spec aiffReaderW (by decide) (by decide)).2 (by decide) (by decide)

/-- C9: once an open AIFF reader is exhausted (zero whole blocks remain),
every `next_packet` call returns end-of-stream without touching the
source: the result is the same for any underlying byte list, and since
the call returns before any read, the cursor position is unchanged, so
repeated calls signal end-of-stream idempotently. -/
theorem C9_next_packet_exhausted_idempotent (r : Aiff.AiffReader) (d' : List Nat)
    (htr : r.tracks ≠ []) (hbs : 0 < r.packet_info.block_size)
    (hex : Aiff.num_blocks_left r = 0) :
    Aiff.next_packet r = .error .EndOfStream ∧
    Aiff.next_packet { r with reader := { data := d', pos := r.reader.pos } } =
      .error .EndOfStream := by
  have hbne : ¬ r.packet_info.block_size = 0 := by omega
  constructor
  · simp only [Aiff.next_packet]
    rw [if_neg htr, if_neg hbne, if_pos hex]
  · simp only [Aiff.next_packet]
    rw [if_neg (by simpa using htr), if_neg (by simpa using hbne),
      if_pos (by simpa [Aiff.num_blocks_left] using hex)]

/-- A concrete exhausted AIFF reader: the cursor sits at `data_end_pos`,
so zero whole blocks remain. -/
def aiffReaderExhW : Aiff.AiffReader :=
  { reader := ⟨[5, 6], 2⟩
    tracks := [aiffTrackW]
    packet_info := { block_size := 2, frames_per_block := 1, max_blocks_per_packet := 1152 }
    data_start_pos := 0
    data_end_pos := 2 }

/-- C9 witness: the theorem applied to the exhausted reader
`aiffReaderExhW` (and an arbitrary replacement byte list). -/
theorem C9_next_packet_exhausted_idempotent_witness :
    Aiff.next_packet aiffReaderExhW = .error .EndOfStream ∧
    Aiff.next_packet
        { aiffReaderExhW with
          reader := { data := [9, 9, 9], pos := aiffReaderExhW.reader.pos } } =
      .error .EndOfStream :=
  C9_next_packet_exhausted_idempotent aiffReaderExhW [9, 9, 9]
    (by decide) (by decide) (by decide)

/-- C8: when the chunk walker, still below the declared total size,
reads a chunk id that is neither COMM nor SSND, it records the chunk as
an identity+size pair appended to the unknown-chunk list, skips the
payload by exactly the declared big-endian size, and leaves the cursor
at the next chunk's id field — position old + 8 + size — provided the
declared payload does not overrun the source. -/
theorem C8_unknown_chunk_skip (fs : Nat) (st : Aiff.LoopState)
    (id szb : List Nat) (s1 s2 : MediaSourceStream)
    (hpos : st.s.pos < fs)
    (h1 : read_quad_bytes st.s = .ok (id, s1))
    (h2 : read_quad_bytes s1 = .ok (szb, s2))
    (hidc : id ≠ Aiff.COM_CHUNK_ID)
    (hids : id ≠ Aiff.SSND_CHUNK_ID)
    (havail : st.s.pos + 8 + from_be_bytes szb ≤ st.s.data.length) :
    Aiff.chunkStep fs st = .ok (.inl
      { st with
        s := { data := st.s.data, pos := st.s.pos + 8 + from_be_bytes szb }
        unknown_chunks :=
          st.unknown_chunks ++ [{ id := id, data_size := from_be_bytes szb }] }) := by
  obtain ⟨hle1, hb1, hs1⟩ := read_quad_bytes_ok_iff.mp h1
  obtain ⟨hle2, hb2, hs2⟩ := read_quad_bytes_ok_iff.mp h2
  simp only [Aiff.chunkStep, h1, h2, if_neg (by omega : ¬ st.s.pos ≥ fs),
    if_neg hidc, if_neg hids]
  subst hs2 hs1
  simp only [ignore_bytes]
  have hmin : min (st.s.pos + 4 + 4 + from_be_bytes szb) st.s.data.length =
      st.s.pos + 8 + from_be_bytes szb := by omega
  rw [hmin]

/-- A concrete loop state whose stream holds one unknown chunk
(id "XXXX", declared size 2) followed by its 2-byte payload. -/
def aiffLoopStateW : Aiff.LoopState :=
  { s := ⟨[88, 88, 88, 88, 0, 0, 0, 2, 9, 9], 0⟩
    common_chunk :=
      { num_channels := 0
        num_sample_frames := 0
        sample_size := 0
        sample_rate_bytes := List.replicate 10 0 }
    sound_chunk := { offset := 0, block_size := 0 }
    unknown_chunks := [] }

/-- C8 witness: the theorem applied to `aiffLoopStateW` with declared
total size 100; the unknown chunk is recorded and skipped, leaving the
cursor at position 10. -/
theorem C8_unknown_chunk_skip_witness :
    Aiff.chunkStep 100 aiffLoopStateW = .ok (.inl
      { aiffLoopStateW with
        s := { data := aiffLoopStateW.s.data
               pos := aiffLoopStateW.s.pos + 8 + from_be_bytes [0, 0, 0, 2] }
        unknown_chunks :=
          aiffLoopStateW.unknown_chunks ++
            [{ id := [88, 88, 88, 88], data_size := from_be_bytes [0, 0, 0, 2] }] }) :=
  C8_unknown_chunk_skip 100 aiffLoopStateW [88, 88, 88, 88] [0, 0, 0, 2]
    ⟨aiffLoopStateW.s.data, 4⟩ ⟨aiffLoopStateW.s.data, 8⟩
    (by decide) (by decide) (by decide) (by decide) (by decide) (by decide)

/-- C5 counterexample: the claim says every dialect's track-building
step fails with an *Unsupported* error for channel count 33, and
produces a mask of the first N positions for every count in 1..=32.
The WavPack helper `try_channel_count_to_mask` instead returns
`Error::DecodeError("riff: invalid channel count")` at 33, and the AIFF
channel match returns Unsupported already at count 3 instead of a
3-position mask. -/
theorem C5_channel_mask_counterexample :
    WavPack.try_channel_count_to_mask 33 =
      .error (.DecodeError "riff: invalid channel count") ∧
    Aiff.channelsOf 3 =
      .error (.Unsupported "aiff: unsupported number of channels") := by
  constructor <;> rfl

/-- C5 amended: WavPack's `try_channel_count_to_mask` fails with a
*Decode* error (message "riff: invalid channel count") for every count
outside 1..=32 — in particular 33 — and yields the mask covering exactly
the first N positions for every count in 1..=32; AIFF's track-building
step maps counts 1 and 2 to the masks covering exactly the first 1 and 2
positions and fails with Unsupported for every other channel count. -/
theorem C5_channel_mask_amended (count : Nat) (n : Int) :
    (¬(1 ≤ count ∧ count ≤ 32) →
      WavPack.try_channel_count_to_mask count =
        .error (.DecodeError "riff: invalid channel count")) ∧
    (1 ≤ count → count ≤ 32 →
      ∃ mask, WavPack.try_channel_count_to_mask count = .ok mask ∧
        ∀ i, mask.testBit i = decide (i < count)) ∧
    (n ≠ 1 → n ≠ 2 →
      Aiff.channelsOf n = .error (.Unsupported "aiff: unsupported number of channels")) ∧
    (Aiff.channelsOf 1 = .ok 1 ∧ ∀ i, Nat.testBit 1 i = decide (i < 1)) ∧
    (Aiff.channelsOf 2 = .ok 3 ∧ ∀ i, Nat.testBit 3 i = decide (i < 2)) := by
  refine ⟨?_, ?_, ?_, ⟨rfl, fun i => Nat.testBit_two_pow_sub_one 1 i⟩,
    ⟨rfl, fun i => Nat.testBit_two_pow_sub_one 2 i⟩⟩
  · intro h
    simp only [WavPack.try_channel_count_to_mask, if_neg h]
  · intro h1 h32
    have hlt : 2 ^ count - 1 < 2 ^ 32 := by
      have := Nat.pow_le_pow_right (by norm_num : 1 ≤ 2) h32
      omega
    refine ⟨2 ^ count - 1, ?_, fun i => Nat.testBit_two_pow_sub_one count i⟩
    simp only [WavPack.try_channel_count_to_mask, if_pos (And.intro h1 h32),
      WavPack.Channels.from_bits, Nat.mod_eq_of_lt hlt, if_pos hlt]
  · intro hn1 hn2
    simp only [Aiff.channelsOf, if_neg hn1, if_neg hn2]

/-- C5 witness: the amended theorem applied at WavPack count 33 (Decode
error), WavPack count 5 (mask of the first 5 positions) and AIFF count 3
(Unsupported). -/
theorem C5_channel_mask_amended_witness :
    WavPack.try_channel_count_to_mask 33 =
      .error (.DecodeError "riff: invalid channel count") ∧
    (∃ mask, WavPack.try_channel_count_to_mask 5 = .ok mask ∧
      ∀ i, mask.testBit i = decide (i < 5)) ∧
    Aiff.channelsOf 3 =
      .error (.Unsupported "aiff: unsupported number of channels") :=
  ⟨(C5_channel_mask_amended 33 3).1 (by omega),
   (C5_channel_mask_amended 5 3).2.1 (by omega) (by omega),
   (C5_channel_mask_amended 33 3).2.2.1 (by decide) (by decide)⟩

theorem readLoop_append_other (bs rest : List Isomp4.ChildAtom)
    (h : ∀ c ∈ bs, c = Isomp4.ChildAtom.other) (tf : Option Isomp4.TfhdAtom)
    (tr : List Isomp4.TrunAtom) :
    Isomp4.readLoop tf tr (bs ++ rest) = Isomp4.readLoop tf tr rest := by
  induction bs generalizing tf tr with
  | nil => rfl
  | cons b bs ih =>
    have hb : b = Isomp4.ChildAtom.other := h b (by simp)
    subst hb
    simp only [List.cons_append, Isomp4.readLoop]
    exact ih (fun c hc => h c (by simp [hc])) tf tr

theorem readLoop_no_tfhd :
    ∀ (l : List Isomp4.ChildAtom) (tf : Option Isomp4.TfhdAtom)
      (tr : List Isomp4.TrunAtom),
      (∀ a, Isomp4.ChildAtom.tfhd a ∉ l) → (Isomp4.readLoop tf tr l).1 = tf
  | [], _, _, _ => rfl
  | Isomp4.ChildAtom.tfhd a :: _, _, _, h => absurd (List.mem_cons_self _ _) (h a)
  | Isomp4.ChildAtom.trun a :: l, tf, tr, h =>
    readLoop_no_tfhd l tf (tr ++ [a]) (fun x hx => h x (List.mem_cons_of_mem _ hx))
  | Isomp4.ChildAtom.other :: l, tf, tr, h =>
    readLoop_no_tfhd l tf tr (fun x hx => h x (List.mem_cons_of_mem _ hx))

/-- C6: `TrafAtom::read` with no mandatory tfhd child among the iterated
children fails with the Decode error "missing tfhd atom"; with exactly
one tfhd child and zero trun children (any number of other, skipped
children around it) it succeeds and yields the composite with an empty
run list. -/
theorem C6_traf_cardinality :
    (∀ (hdr : Isomp4.AtomHeader) (children : List Isomp4.ChildAtom),
      (∀ a, Isomp4.ChildAtom.tfhd a ∉ children) →
      Isomp4.TrafAtom.read hdr children = .error (.DecodeError "missing tfhd atom")) ∧
    (∀ (hdr : Isomp4.AtomHeader) (a : Isomp4.TfhdAtom)
        (before after : List Isomp4.ChildAtom),
      (∀ c ∈ before, c = Isomp4.ChildAtom.other) →
      (∀ c ∈ after, c = Isomp4.ChildAtom.other) →
      Isomp4.TrafAtom.read hdr (before ++ Isomp4.ChildAtom.tfhd a :: after) =
        .ok { header := hdr, tfhd := a, truns := [] }) := by
  constructor
  · intro hdr children h
    unfold Isomp4.TrafAtom.read
    have h1 := readLoop_no_tfhd children none [] h
    rcases hq : Isomp4.readLoop none [] children with ⟨tf, tr⟩
    rw [hq] at h1
    simp only at h1
    subst h1
    rfl
  · intro hdr a before after hb ha
    unfold Isomp4.TrafAtom.read
    rw [readLoop_append_other before _ hb]
    have h2 : Isomp4.readLoop (some a) [] after = (some a, []) := by
      have h3 := readLoop_append_other after [] ha (some a) []
      rw [List.append_nil] at h3
      exact h3
    simp only [Isomp4.readLoop, h2]

/-- C6 witness: the theorem applied to a composite with one skipped
child and no tfhd (Decode error), and to a composite with one skipped
child followed by exactly one tfhd child and zero truns (success with an
empty run list). -/
theorem C6_traf_cardinality_witness :
    Isomp4.TrafAtom.read ⟨0, 0⟩ [Isomp4.ChildAtom.other] =
      .error (.DecodeError "missing tfhd atom") ∧
    Isomp4.TrafAtom.read ⟨0, 0⟩
        [Isomp4.ChildAtom.other, Isomp4.ChildAtom.tfhd ⟨7⟩] =
      .ok { header := ⟨0, 0⟩, tfhd := ⟨7⟩, truns := [] } :=
  ⟨C6_traf_cardinality.1 ⟨0, 0⟩ [Isomp4.ChildAtom.other] (by intro a; simp),
   C6_traf_cardinality.2 ⟨0, 0⟩ ⟨7⟩ [Isomp4.ChildAtom.other] []
     (by simp) (by simp)⟩
